import Mathlib

/-!
Shallow embedding of `sdk/storage/azure-storage-file-datalake/azure/storage/filedatalake/
_shared/base_client_async.py`: the async storage base client's pipeline assembly
(`_create_pipeline`), batch execution (`_batch_send`), the transport wrapper
(`AsyncTransportWrapper`) and the context-manager protocol of
`AsyncStorageAccountHostsMixin`.

Python objects become Lean structures; duck typing (`hasattr(credential, "get_token")`,
`isinstance(...)`) becomes boolean capability fields; raising becomes `Except.error`;
`kwargs.pop(k, default)` / `kwargs.get(k)` become `Option` fields read with `getD`.
Code of this repository that lives outside the provided source file
(`create_configuration`, `process_storage_error`, the constants module) is modelled
from the spec and marked as such in its doc comment.
-/

/-- A sub-request of a batch: method, URL, headers, body (spec section 3 SubRequest). -/
structure SubRequest where
  method : String
  url : String
  headers : List (String × String)
  body : String
deriving DecidableEq, Repr

/-- One part of a parsed multipart response (spec section 3 PartResponse). -/
structure PartResponse where
  status_code : Nat
  headers : List (String × String) := []
  body : String := ""
deriving DecidableEq, Repr

/-- A top-level HTTP response; `parts` is the data yielded by `response.parts()`
(the multipart parsing itself is done by the external azure-core layer). -/
structure HttpResponse where
  status_code : Nat
  headers : List (String × String) := []
  parts : List PartResponse := []
deriving DecidableEq, Repr

/-- A credential policy as resolved by `_create_pipeline` (lines 71-79):
`AsyncBearerTokenCredentialPolicy(credential, STORAGE_OAUTH_SCOPE)`, the
`SharedKeyCredentialPolicy` passed through as-is, or `AzureSasCredentialPolicy(credential)`. -/
inductive CredentialPolicy where
  | AsyncBearerTokenCredentialPolicy (scope : String)
  | SharedKeyCredentialPolicy
  | AzureSasCredentialPolicy
deriving DecidableEq, Repr

/-- A pipeline stage. Constructors are named after the classes used in
`_create_pipeline` and `_batch_send`; config-held stages (headers, proxy, user agent,
retry, logging) are the ones `create_configuration` installs; `additional` stands for a
caller-supplied extra policy from `_additional_pipeline_policies`. -/
inductive Policy where
  | QueueMessagePolicy
  | StorageHeadersPolicy
  | ProxyPolicy
  | UserAgentPolicy
  | StorageContentValidation
  | StorageRequestHook
  | credentialPolicy (c : CredentialPolicy)
  | ContentDecodePolicy
  | AsyncRedirectPolicy
  | StorageHosts
  | ExponentialRetry
  | StorageLoggingPolicy
  | AsyncStorageResponseHook
  | DistributedTracingPolicy
  | HttpLoggingPolicy
  | additional (id : Nat)
deriving DecidableEq, Repr

/-- A top-level HTTP request. `multipart_requests`, `multipart_policies` and
`enforce_https` record what `request.set_multipart_mixed(*reqs, policies=policies,
enforce_https=False)` attaches to the request (lines 136-140). -/
structure HttpRequest where
  method : String
  url : String
  headers : List (String × String)
  multipart_requests : List SubRequest := []
  multipart_policies : List Policy := []
  enforce_https : Bool := true
deriving DecidableEq, Repr

/-- The exceptions that can escape `_batch_send`. `HttpResponseError(response=response)`
is what line 149 raises; `PartialBatchErrorException(message, response, parts)` is what
lines 156-160 raise; `StorageServiceError` is the spec's name (section 7) for the decoded
service error that `process_storage_error` produces from a plain `HttpResponseError`. -/
inductive StorageException where
  | HttpResponseError (response : HttpResponse)
  | PartialBatchErrorException (message : String) (response : HttpResponse)
      (parts : List PartResponse)
  | StorageServiceError (response : HttpResponse)
deriving DecidableEq, Repr

/-- Modelled from the spec: `process_storage_error` lives in `response_handlers.py`,
which is not under src/. Spec section 4.5: a non-202 top-level response (carried by a
plain `HttpResponseError`) is converted to a `StorageServiceError` using the standard
service-error decoding contract, while `PartialBatchFailure` is distinct from
`StorageServiceError` and is raised to the caller as such (sections 4.4-4.5), so a
`PartialBatchErrorException` passes through unchanged. -/
def process_storage_error : StorageException → StorageException
  | StorageException.HttpResponseError r => StorageException.StorageServiceError r
  | e => e

/-- What `_batch_send` returns on success: `AsyncList(parts_list)` (the eagerly
materialized list, line 161) or the raw lazy `AsyncIterator` of parts (line 162). -/
inductive BatchReturn where
  | asyncList (parts : List PartResponse)
  | asyncIterator (parts : List PartResponse)
deriving DecidableEq, Repr

/-- The fields of `self` that `_batch_send` reads: `self.scheme`,
`self.primary_hostname`, `self.api_version` and `self._credential_policy`. -/
structure BatchClient where
  scheme : String
  primary_hostname : String
  api_version : String
  _credential_policy : Option CredentialPolicy
deriving DecidableEq, Repr

/-- The keyword arguments `_batch_send` pops: `raise_on_any_failure` (default `True`),
and `path`, `restype`, `sas`, `timeout` (default the empty string). -/
structure BatchKwargs where
  raise_on_any_failure : Option Bool := none
  path : Option String := none
  restype : Option String := none
  sas : Option String := none
  timeout : Option String := none
deriving DecidableEq, Repr

/-- `200 <= p.status_code < 300` from line 155. -/
def PartResponse.is_success (p : PartResponse) : Bool :=
  decide (200 ≤ p.status_code) && decide (p.status_code < 300)

/-- Lines 121-140 of `_batch_send`: build the top-level POST request
`{scheme}://{primary_hostname}/{path}?{restype}comp=batch{sas}{timeout}` with header
`x-ms-version: {api_version}`, then attach the sub-requests as a multipart/mixed body
whose per-part policies are `[StorageHeadersPolicy()]` plus the credential policy when
one is present (`if self._credential_policy: policies.append(self._credential_policy)`). -/
def batch_request (client : BatchClient) (kw : BatchKwargs) (reqs : List SubRequest) :
    HttpRequest :=
  { method := "POST"
    url := client.scheme ++ "://" ++ client.primary_hostname ++ "/"
        ++ kw.path.getD "" ++ "?" ++ kw.restype.getD ""
        ++ "comp=batch" ++ kw.sas.getD "" ++ kw.timeout.getD ""
    headers := [("x-ms-version", client.api_version)]
    multipart_requests := reqs
    multipart_policies :=
      (let policies := [Policy.StorageHeadersPolicy]
       match client._credential_policy with
       | some c => policies ++ [Policy.credentialPolicy c]
       | none => policies)
    enforce_https := false }

/-- Lines 114-164: `_batch_send`. The pipeline exchange
`await self._pipeline.run(request, **kwargs)` is abstracted as the function `run` from
the built request to the top-level response. The `try`/`except HttpResponseError`
around lines 147-164 catches both the `HttpResponseError` raised for a non-202 status
and the `PartialBatchErrorException` (a subclass) raised for a failed part, and hands
either to `process_storage_error`; this shows up below as wrapping both error paths in
`process_storage_error`. -/
def _batch_send (client : BatchClient) (reqs : List SubRequest) (kw : BatchKwargs)
    (run : HttpRequest → HttpResponse) : Except StorageException BatchReturn :=
  let raise_on_any_failure := kw.raise_on_any_failure.getD true
  let request := batch_request client kw reqs
  let response := run request
  if response.status_code ∉ [202] then
    Except.error (process_storage_error (StorageException.HttpResponseError response))
  else
    let parts := response.parts
    if raise_on_any_failure then
      let parts_list := parts
      if parts_list.any (fun p => ! p.is_success) then
        Except.error (process_storage_error
          (StorageException.PartialBatchErrorException
            "There is a partial failure in the batch operation." response parts_list))
      else
        Except.ok (BatchReturn.asyncList parts_list)
    else
      Except.ok (BatchReturn.asyncIterator parts)

/-- Modelled from the spec: `STORAGE_OAUTH_SCOPE` lives in `constants.py`, which is not
under src/. Spec section 4.1 calls it a fixed OAuth scope constant; its exact value is
irrelevant to every claim, only that it is one fixed string. -/
def STORAGE_OAUTH_SCOPE : String := "https://storage.azure.com/.default"

/-- The opaque credential value handed to `_create_pipeline`, capability-typed the way
the Python code probes it: `credential is None`, `hasattr(credential, "get_token")`,
`isinstance(credential, SharedKeyCredentialPolicy)`,
`isinstance(credential, AzureSasCredential)`; `repr` is the text interpolated into the
`TypeError` message. A `None` credential has every capability flag false. -/
structure CredentialValue where
  is_none : Bool
  has_get_token : Bool
  is_shared_key_credential_policy : Bool
  is_azure_sas_credential : Bool
  repr : String := ""
deriving DecidableEq, Repr

/-- The exceptions `_create_pipeline` and the synchronous context-manager protocol can
raise: `TypeError` (unsupported credential, line 79; sync `with`, line 51) and
`ImportError` (no usable async transport, line 90). -/
inductive PipelineError where
  | TypeError (message : String)
  | ImportError (message : String)
deriving DecidableEq, Repr

/-- Spec section 7 groups both construction-time failures of this module — unsupported
credential type and no usable transport implementation — under the single name
ConfigurationError, raised at construction before any I/O. -/
def PipelineError.isConfigurationError : PipelineError → Bool
  | PipelineError.TypeError _ => true
  | PipelineError.ImportError _ => true

/-- Lines 71-79 of `_create_pipeline`: resolve the opaque credential into an optional
credential policy, probing in source order (`get_token` duck-typing first, then the two
isinstance checks), and raising `TypeError(f"Unsupported credential: {credential}")`
for a non-None value matching nothing. -/
def resolve_credential_policy (credential : CredentialValue) :
    Except PipelineError (Option CredentialPolicy) :=
  if credential.has_get_token then
    Except.ok (some (CredentialPolicy.AsyncBearerTokenCredentialPolicy STORAGE_OAUTH_SCOPE))
  else if credential.is_shared_key_credential_policy then
    Except.ok (some CredentialPolicy.SharedKeyCredentialPolicy)
  else if credential.is_azure_sas_credential then
    Except.ok (some CredentialPolicy.AzureSasCredentialPolicy)
  else if ! credential.is_none then
    Except.error (PipelineError.TypeError ("Unsupported credential: " ++ credential.repr))
  else
    Except.ok none

/-- The transport values this file distinguishes: the default `AioHttpTransport`
constructed at line 91 when none is supplied, or a caller-supplied transport.
The `connection_timeout` / `read_timeout` kwargs defaulted at lines 84-85 only
parameterize the transport construction and are elided: no claim depends on them and
their default values live in `constants.py`, outside src/. -/
inductive Transport where
  | AioHttpTransport
  | custom (id : Nat)
deriving DecidableEq, Repr

/-- The slice of the azure-core `Configuration` object this file reads: the five
policies that `create_configuration` installs on it, plus the `transport` attribute
that `_create_pipeline` assigns (line 83). -/
structure Configuration where
  headers_policy : Policy
  proxy_policy : Policy
  user_agent_policy : Policy
  retry_policy : Policy
  logging_policy : Policy
  transport : Option Transport := none
deriving DecidableEq, Repr

/-- Modelled from the spec: `create_configuration` lives in `base_client.py`, which is
not under src/. Spec section 4.2 has the configuration supply the static header
injection stages (standard headers, proxy, user agent), the retry stage and the
response logging stage; it is a fixed deterministic assembly. -/
def create_configuration : Configuration :=
  { headers_policy := Policy.StorageHeadersPolicy
    proxy_policy := Policy.ProxyPolicy
    user_agent_policy := Policy.UserAgentPolicy
    retry_policy := Policy.ExponentialRetry
    logging_policy := Policy.StorageLoggingPolicy
    transport := none }

/-- The built pipeline: `AsyncPipeline(config.transport, policies=policies)` (line 111).
The policies list is kept exactly as constructed, `Option`-valued because the Python
list literally contains `None` in the credential slot for anonymous access (the
external `AsyncPipeline` skips falsy entries). -/
structure AsyncPipelineModel where
  transport : Option Transport
  policies : List (Option Policy)
deriving DecidableEq, Repr

/-- The keyword arguments `_create_pipeline` reads: `_configuration`, `_pipeline`,
`transport` and `_additional_pipeline_policies` (absent modelled as `none` / `[]`,
matching Python falsiness of `None` and of an empty list). -/
structure PipelineKwargs where
  _configuration : Option Configuration := none
  _pipeline : Option AsyncPipelineModel := none
  transport : Option Transport := none
  _additional_pipeline_policies : List Policy := []
deriving DecidableEq, Repr

/-- Lines 92-110: the policy list built by `_create_pipeline`, with
`self._credential_policy` (possibly `None`) in its slot, and
`_additional_pipeline_policies` appended when the kwarg is truthy (a non-empty list). -/
def create_pipeline_policies (config : Configuration) (cp : Option CredentialPolicy)
    (kw : PipelineKwargs) : List (Option Policy) :=
  let policies : List (Option Policy) :=
    [some Policy.QueueMessagePolicy,
     some config.headers_policy,
     some config.proxy_policy,
     some config.user_agent_policy,
     some Policy.StorageContentValidation,
     some Policy.StorageRequestHook,
     Option.map Policy.credentialPolicy cp,
     some Policy.ContentDecodePolicy,
     some Policy.AsyncRedirectPolicy,
     some Policy.StorageHosts,
     some config.retry_policy,
     some config.logging_policy,
     some Policy.AsyncStorageResponseHook,
     some Policy.DistributedTracingPolicy,
     some Policy.HttpLoggingPolicy]
  if kw._additional_pipeline_policies ≠ [] then
    policies ++ kw._additional_pipeline_policies.map some
  else
    policies

/-- What `_create_pipeline` produces: the credential policy it stored on
`self._credential_policy`, and the `(config, pipeline)` pair it returns. -/
structure CreatePipelineResult where
  _credential_policy : Option CredentialPolicy
  config : Configuration
  pipeline : AsyncPipelineModel
deriving DecidableEq, Repr

/-- Lines 69-111: `_create_pipeline`. `aiohttp_importable` models whether
`from azure.core.pipeline.transport import AioHttpTransport` succeeds (line 88).
Control flow follows the source: resolve the credential; take `_configuration` or
build one (`kwargs.get("_configuration") or create_configuration(**kwargs)`); return
early with the supplied `_pipeline` when that kwarg is truthy; otherwise install the
`transport` kwarg on the config, fall back to constructing an `AioHttpTransport`
(raising `ImportError` when the import fails), and build the policy chain. -/
def _create_pipeline (credential : CredentialValue) (aiohttp_importable : Bool)
    (kw : PipelineKwargs) : Except PipelineError CreatePipelineResult :=
  match resolve_credential_policy credential with
  | Except.error e => Except.error e
  | Except.ok cp =>
    let config := kw._configuration.getD create_configuration
    match kw._pipeline with
    | some p =>
      Except.ok { _credential_policy := cp, config := config, pipeline := p }
    | none =>
      let config := { config with transport := kw.transport }
      match config.transport with
      | some t =>
        Except.ok { _credential_policy := cp, config := config,
                    pipeline := { transport := some t,
                                  policies := create_pipeline_policies config cp kw } }
      | none =>
        if aiohttp_importable then
          let config := { config with transport := some Transport.AioHttpTransport }
          Except.ok { _credential_policy := cp, config := config,
                      pipeline := { transport := some Transport.AioHttpTransport,
                                    policies := create_pipeline_policies config cp kw } }
        else
          Except.error (PipelineError.ImportError
            "Unable to create async transport. Please check aiohttp is installed.")

/-- Lines 50-51: the synchronous `__enter__` of `AsyncStorageAccountHostsMixin`
unconditionally raises `TypeError("Async client only supports " plus the quoted
asynchronous form)` before doing anything else; its body is the single raise. -/
def AsyncStorageAccountHostsMixin_enter : Except PipelineError Unit :=
  Except.error (PipelineError.TypeError
    "Async client only supports \x27async with\x27.")

/-- The operations of a wrapped async transport, as state transformers over an
abstract transport state `σ` producing responses in `ρ`: this is the interface of
`AsyncHttpTransport` that `AsyncTransportWrapper` (lines 167-188) forwards or stubs. -/
structure AsyncHttpTransportOps (σ ρ : Type) where
  send : σ → HttpRequest → σ × ρ
  open_ : σ → σ
  close : σ → σ
  aenter : σ → σ
  aexit : σ → σ

/-- Line 175-176: `AsyncTransportWrapper.send` delegates to the wrapped transport. -/
def AsyncTransportWrapper.send {σ ρ : Type} (t : AsyncHttpTransportOps σ ρ) (s : σ)
    (request : HttpRequest) : σ × ρ :=
  t.send s request

/-- Lines 178-179: `AsyncTransportWrapper.open` is `pass`. -/
def AsyncTransportWrapper.open_ {σ ρ : Type} (_t : AsyncHttpTransportOps σ ρ) (s : σ) :
    σ :=
  s

/-- Lines 181-182: `AsyncTransportWrapper.close` is `pass`. -/
def AsyncTransportWrapper.close {σ ρ : Type} (_t : AsyncHttpTransportOps σ ρ) (s : σ) :
    σ :=
  s

/-- Lines 184-185: `AsyncTransportWrapper.__aenter__` is `pass`. -/
def AsyncTransportWrapper.aenter {σ ρ : Type} (_t : AsyncHttpTransportOps σ ρ) (s : σ) :
    σ :=
  s

/-- Lines 187-188: `AsyncTransportWrapper.__aexit__` is `pass`. -/
def AsyncTransportWrapper.aexit {σ ρ : Type} (_t : AsyncHttpTransportOps σ ρ) (s : σ) :
    σ :=
  s

/-- The pipeline stage order exactly as enumerated by spec section 4.2, head to tail,
written from the spec's words for refinement comparison (NOT from the source): item 2
"static header injection (user agent, proxy, standard headers)" is order-insensitive
among itself and is expanded here in the source's own order to give the spec every
benefit of the doubt. The enumeration goes from the credential policy (item 5)
directly to redirect handling (item 6). -/
def specSection42Chain (config : Configuration) (cp : Option CredentialPolicy) :
    List (Option Policy) :=
  [some Policy.QueueMessagePolicy,
   some config.headers_policy,
   some config.proxy_policy,
   some config.user_agent_policy,
   some Policy.StorageContentValidation,
   some Policy.StorageRequestHook,
   Option.map Policy.credentialPolicy cp,
   some Policy.AsyncRedirectPolicy,
   some Policy.StorageHosts,
   some config.retry_policy,
   some config.logging_policy,
   some Policy.AsyncStorageResponseHook,
   some Policy.DistributedTracingPolicy,
   some Policy.HttpLoggingPolicy]

/-- The spec section 4.2 order amended with the content-decoding stage the source
inserts between the credential policy and redirect handling (line 100). -/
def specSection42ChainWithContentDecode (config : Configuration)
    (cp : Option CredentialPolicy) : List (Option Policy) :=
  [some Policy.QueueMessagePolicy,
   some config.headers_policy,
   some config.proxy_policy,
   some config.user_agent_policy,
   some Policy.StorageContentValidation,
   some Policy.StorageRequestHook,
   Option.map Policy.credentialPolicy cp,
   some Policy.ContentDecodePolicy,
   some Policy.AsyncRedirectPolicy,
   some Policy.StorageHosts,
   some config.retry_policy,
   some config.logging_policy,
   some Policy.AsyncStorageResponseHook,
   some Policy.DistributedTracingPolicy,
   some Policy.HttpLoggingPolicy]

/- Concrete instances used by witnesses and counterexamples. -/

/-- A concrete batch client with a shared-key credential policy. -/
def exClient : BatchClient :=
  { scheme := "https", primary_hostname := "account.dfs.core.windows.net",
    api_version := "2020-06-12",
    _credential_policy := some CredentialPolicy.SharedKeyCredentialPolicy }

/-- A concrete part response with the given status code. -/
def exPart (c : Nat) : PartResponse := { status_code := c }

/-- A 202 top-level response whose second part failed with 404. -/
def exResp202bad : HttpResponse :=
  { status_code := 202, parts := [exPart 200, exPart 404, exPart 200] }

/-- A 202 top-level response with all parts successful. -/
def exResp202ok : HttpResponse :=
  { status_code := 202, parts := [exPart 200, exPart 204, exPart 200] }

/-- A failed top-level response (500). -/
def exResp500 : HttpResponse := { status_code := 500, parts := [exPart 200] }

/-- An anonymous credential: `credential is None`, no capability matches. -/
def exAnonymousCredential : CredentialValue :=
  { is_none := true, has_get_token := false,
    is_shared_key_credential_policy := false, is_azure_sas_credential := false }

/-- An unsupported credential: non-None, no `get_token`, not a
`SharedKeyCredentialPolicy`, not an `AzureSasCredential`. -/
def exUnsupportedCredential : CredentialValue :=
  { is_none := false, has_get_token := false,
    is_shared_key_credential_policy := false, is_azure_sas_credential := false,
    repr := "12345" }

/-- A token credential: exposes `get_token`. -/
def exBearerCredential : CredentialValue :=
  { is_none := false, has_get_token := true,
    is_shared_key_credential_policy := false, is_azure_sas_credential := false }

/-- A concrete pre-built pipeline handed in through the `_pipeline` kwarg. -/
def exSuppliedPipeline : AsyncPipelineModel :=
  { transport := some (Transport.custom 7), policies := [some (Policy.additional 0)] }

/-- Kwargs supplying `exSuppliedPipeline` and, in particular, no transport. -/
def exKwWithPipeline : PipelineKwargs := { _pipeline := some exSuppliedPipeline }

/- Helper lemmas. -/

/-- The `any(p for p in parts_list if not 200 <= p.status_code < 300)` test of line 155
holds exactly when some part's status lies outside `[200, 300)`. -/
lemma any_not_success_iff (ps : List PartResponse) :
    (ps.any fun p => ! p.is_success) = true ↔
      ∃ p ∈ ps, ¬ (200 ≤ p.status_code ∧ p.status_code < 300) := by
  rw [List.any_eq_true]
  constructor
  · rintro ⟨p, hp, h⟩
    refine ⟨p, hp, ?_⟩
    intro hc
    simp [PartResponse.is_success, hc.1, hc.2] at h
  · rintro ⟨p, hp, h⟩
    refine ⟨p, hp, ?_⟩
    by_cases h1 : 200 ≤ p.status_code
    · have h2 : ¬ p.status_code < 300 := fun h2 => h ⟨h1, h2⟩
      simp [PartResponse.is_success, h2]
    · simp [PartResponse.is_success, h1]

/-- Both construction-time errors of this module are what the spec calls a
ConfigurationError. -/
lemma isConfigurationError_eq_true (e : PipelineError) :
    e.isConfigurationError = true := by
  cases e <;> rfl

/-- C1: with `raise_on_any_failure` true and a 202 top-level response, `_batch_send`
raises `PartialBatchErrorException` iff some part status lies outside `[200, 300)`;
the exception carries the complete ordered part list (successes included) and the
triggering top-level response; with every part in range it returns the full ordered
eagerly materialized list. -/
theorem batch_send_eager_partial_failure_iff
    (client : BatchClient) (reqs : List SubRequest) (kw : BatchKwargs)
    (run : HttpRequest → HttpResponse) (resp : HttpResponse)
    (hresp : run (batch_request client kw reqs) = resp)
    (h202 : resp.status_code = 202)
    (hflag : kw.raise_on_any_failure.getD true = true) :
    (_batch_send client reqs kw run =
        Except.error (StorageException.PartialBatchErrorException
          "There is a partial failure in the batch operation." resp resp.parts)
      ↔ ∃ p ∈ resp.parts, ¬ (200 ≤ p.status_code ∧ p.status_code < 300))
    ∧ ((∀ p ∈ resp.parts, 200 ≤ p.status_code ∧ p.status_code < 300) →
        _batch_send client reqs kw run = Except.ok (BatchReturn.asyncList resp.parts))
    ∧ (∀ m r ps, _batch_send client reqs kw run =
          Except.error (StorageException.PartialBatchErrorException m r ps) →
        m = "There is a partial failure in the batch operation."
          ∧ r = resp ∧ ps = resp.parts) := by
  have key : _batch_send client reqs kw run =
      if (resp.parts.any fun p => ! p.is_success) then
        Except.error (StorageException.PartialBatchErrorException
          "There is a partial failure in the batch operation." resp resp.parts)
      else
        Except.ok (BatchReturn.asyncList resp.parts) := by
    simp only [_batch_send]
    rw [hresp, hflag]
    simp [h202, process_storage_error]
  rcases hb : (resp.parts.any fun p => ! p.is_success) with _ | _
  · rw [hb] at key
    simp only [if_neg Bool.false_ne_true] at key
    have hex : ¬ ∃ p ∈ resp.parts, ¬ (200 ≤ p.status_code ∧ p.status_code < 300) := by
      rw [← any_not_success_iff, hb]
      simp
    refine ⟨iff_of_false (by simp [key]) hex, fun _ => key, fun m r ps hc => ?_⟩
    rw [key] at hc
    simp at hc
  · rw [hb] at key
    simp only [if_pos rfl] at key
    refine ⟨iff_of_true key ((any_not_success_iff resp.parts).mp hb),
      fun hall => ?_, fun m r ps hc => ?_⟩
    · rcases (any_not_success_iff resp.parts).mp hb with ⟨p, hp, hbad⟩
      exact absurd (hall p hp) hbad
    · rw [key] at hc
      injection hc with hc2
      injection hc2 with hm hr hps
      exact ⟨hm.symm, hr.symm, hps.symm⟩

/-- C1 witness: a batch whose parts are `[200, 404, 200]` raises the partial-failure
exception carrying all three parts, and one whose parts are `[200, 204, 200]` returns
the eager three-element list. -/
theorem batch_send_eager_partial_failure_iff_witness :
    _batch_send exClient [] {} (fun _ => exResp202bad) =
      Except.error (StorageException.PartialBatchErrorException
        "There is a partial failure in the batch operation." exResp202bad
        exResp202bad.parts)
    ∧ _batch_send exClient [] {} (fun _ => exResp202ok) =
        Except.ok (BatchReturn.asyncList exResp202ok.parts) :=
  ⟨(batch_send_eager_partial_failure_iff exClient [] {} (fun _ => exResp202bad)
      exResp202bad rfl rfl rfl).1.mpr ⟨exPart 404, by decide, by decide⟩,
   (batch_send_eager_partial_failure_iff exClient [] {} (fun _ => exResp202ok)
      exResp202ok rfl rfl rfl).2.1 (by decide)⟩

/-- C2: when the top-level response status is not 202, `_batch_send` raises the decoded
service error (`StorageServiceError`), whatever the parts are (the quantification over
arbitrary `resp.parts` shows no part is inspected), and never raises
`PartialBatchErrorException`. -/
theorem batch_send_non202_raises_storage_service_error
    (client : BatchClient) (reqs : List SubRequest) (kw : BatchKwargs)
    (run : HttpRequest → HttpResponse) (resp : HttpResponse)
    (hresp : run (batch_request client kw reqs) = resp)
    (h : resp.status_code ≠ 202) :
    _batch_send client reqs kw run =
      Except.error (StorageException.StorageServiceError resp)
    ∧ ∀ m r ps, _batch_send client reqs kw run ≠
        Except.error (StorageException.PartialBatchErrorException m r ps) := by
  have key : _batch_send client reqs kw run =
      Except.error (StorageException.StorageServiceError resp) := by
    simp only [_batch_send]
    rw [hresp]
    simp [h, process_storage_error]
  refine ⟨key, fun m r ps hc => ?_⟩
  rw [key] at hc
  simp at hc

/-- C2 witness: a 500 top-level response (with a part present) yields the decoded
`StorageServiceError` and no partial-batch failure. -/
theorem batch_send_non202_raises_storage_service_error_witness :
    _batch_send exClient [] {} (fun _ => exResp500) =
      Except.error (StorageException.StorageServiceError exResp500)
    ∧ ∀ m r ps, _batch_send exClient [] {} (fun _ => exResp500) ≠
        Except.error (StorageException.PartialBatchErrorException m r ps) :=
  batch_send_non202_raises_storage_service_error exClient [] {} (fun _ => exResp500)
    exResp500 rfl (by decide)

/-- C4: with `raise_on_any_failure` explicitly false and a 202 top-level response,
`_batch_send` returns the lazy iterator of parts and raises nothing, whatever the part
statuses are; and leaving the flag unset behaves exactly like passing true. -/
theorem batch_send_lazy_never_raises_and_default_true
    (client : BatchClient) (reqs : List SubRequest) (kw : BatchKwargs)
    (run : HttpRequest → HttpResponse) (resp : HttpResponse)
    (hresp : run (batch_request client kw reqs) = resp)
    (h202 : resp.status_code = 202)
    (hflag : kw.raise_on_any_failure = some false) :
    _batch_send client reqs kw run = Except.ok (BatchReturn.asyncIterator resp.parts)
    ∧ ∀ kw2 : BatchKwargs, kw2.raise_on_any_failure = none →
        _batch_send client reqs kw2 run =
          _batch_send client reqs { kw2 with raise_on_any_failure := some true } run := by
  constructor
  · simp only [_batch_send]
    rw [hresp, hflag]
    simp [h202]
  · intro kw2 h2
    simp only [_batch_send]
    rw [h2]
    rfl

/-- C4 witness: with the flag false a `[200, 404]`-parts batch returns the lazy
iterator of both parts, and the unset flag behaves like true on the same exchange. -/
theorem batch_send_lazy_never_raises_and_default_true_witness :
    _batch_send exClient [] { raise_on_any_failure := some false }
        (fun _ => exResp202bad) =
      Except.ok (BatchReturn.asyncIterator exResp202bad.parts)
    ∧ _batch_send exClient [] {} (fun _ => exResp202bad) =
        _batch_send exClient [] { raise_on_any_failure := some true }
          (fun _ => exResp202bad) :=
  ⟨(batch_send_lazy_never_raises_and_default_true exClient []
      { raise_on_any_failure := some false } (fun _ => exResp202bad) exResp202bad
      rfl rfl rfl).1,
   (batch_send_lazy_never_raises_and_default_true exClient []
      { raise_on_any_failure := some false } (fun _ => exResp202bad) exResp202bad
      rfl rfl rfl).2 {} rfl⟩

/-- C3 counterexample: with an anonymous credential, a truthy pre-built `_pipeline`
kwarg, no transport supplied and the aiohttp import failing, `_create_pipeline`
succeeds instead of raising: the early return at line 82 precedes the transport
fallback of lines 86-91, so the claim as stated fails at this input. -/
theorem create_pipeline_no_transport_counterexample :
    exKwWithPipeline.transport = none
    ∧ _create_pipeline exAnonymousCredential false exKwWithPipeline =
        Except.ok { _credential_policy := none, config := create_configuration,
                    pipeline := exSuppliedPipeline } :=
  ⟨rfl, rfl⟩

/-- C3 (amended): an unsupported credential — non-None, no `get_token`, neither a
`SharedKeyCredentialPolicy` nor an `AzureSasCredential` — and likewise the combination
of no supplied transport, no supplied pre-built `_pipeline` and a failing aiohttp
import, each make `_create_pipeline` fail with a construction-time error that the spec
classifies as a ConfigurationError; no pipeline is built. -/
theorem create_pipeline_configuration_error_amended
    (credential : CredentialValue) (aiohttp_importable : Bool) (kw : PipelineKwargs)
    (h : (credential.is_none = false ∧ credential.has_get_token = false
           ∧ credential.is_shared_key_credential_policy = false
           ∧ credential.is_azure_sas_credential = false)
        ∨ (kw._pipeline = none ∧ kw.transport = none ∧ aiohttp_importable = false)) :
    ∃ e, _create_pipeline credential aiohttp_importable kw = Except.error e
      ∧ e.isConfigurationError = true := by
  rcases h with ⟨h1, h2, h3, h4⟩ | ⟨h1, h2, h3⟩
  · have hres : resolve_credential_policy credential =
        Except.error (PipelineError.TypeError
          ("Unsupported credential: " ++ credential.repr)) := by
      simp [resolve_credential_policy, h1, h2, h3, h4]
    refine ⟨PipelineError.TypeError ("Unsupported credential: " ++ credential.repr),
      ?_, rfl⟩
    simp only [_create_pipeline, hres]
  · cases hres : resolve_credential_policy credential with
    | error e =>
      refine ⟨e, ?_, isConfigurationError_eq_true e⟩
      simp only [_create_pipeline, hres]
    | ok cp =>
      refine ⟨PipelineError.ImportError
        "Unable to create async transport. Please check aiohttp is installed.",
        ?_, rfl⟩
      simp only [_create_pipeline, hres, h1, h2, h3]
      rfl

/-- C3 witness: an unsupported credential object, and separately an anonymous client
with no transport and no aiohttp, both fail construction with a ConfigurationError. -/
theorem create_pipeline_configuration_error_amended_witness :
    (∃ e, _create_pipeline exUnsupportedCredential true {} = Except.error e
       ∧ e.isConfigurationError = true)
    ∧ (∃ e, _create_pipeline exAnonymousCredential false {} = Except.error e
       ∧ e.isConfigurationError = true) :=
  ⟨create_pipeline_configuration_error_amended exUnsupportedCredential true {}
     (Or.inl ⟨rfl, rfl, rfl, rfl⟩),
   create_pipeline_configuration_error_amended exAnonymousCredential false {}
     (Or.inr ⟨rfl, rfl, rfl⟩)⟩

/-- Lines 92-111 restated: the built policy list is the spec section 4.2 enumeration
amended with the content-decoding stage, with caller-supplied additional policies
appended at the tail (also when that list is empty, since appending nothing is the
identity). -/
lemma create_pipeline_policies_eq (config : Configuration) (cp : Option CredentialPolicy)
    (kw : PipelineKwargs) :
    create_pipeline_policies config cp kw =
      specSection42ChainWithContentDecode config cp
        ++ kw._additional_pipeline_policies.map some := by
  by_cases hadd : kw._additional_pipeline_policies = []
  · simp [create_pipeline_policies, specSection42ChainWithContentDecode, hadd]
  · simp [create_pipeline_policies, specSection42ChainWithContentDecode, hadd]

/-- C5 counterexample: for default inputs the chain `_create_pipeline` builds contains
`ContentDecodePolicy(response_encoding="utf-8")` (line 100), a stage the section 4.2
enumeration omits, so the built chain is not the section 4.2 sequence as stated. -/
theorem create_pipeline_chain_not_spec42_counterexample :
    _create_pipeline exAnonymousCredential true {} =
      Except.ok { _credential_policy := none,
                  config := { create_configuration with
                              transport := some Transport.AioHttpTransport },
                  pipeline := { transport := some Transport.AioHttpTransport,
                                policies := create_pipeline_policies
                                  create_configuration none {} } }
    ∧ create_pipeline_policies create_configuration none {} ≠
        specSection42Chain create_configuration none
    ∧ some Policy.ContentDecodePolicy ∈
        create_pipeline_policies create_configuration none {}
    ∧ some Policy.ContentDecodePolicy ∉ specSection42Chain create_configuration none :=
  ⟨rfl, by decide, by decide, by decide⟩

/-- C5 (amended): every successfully built pipeline (no pre-built `_pipeline`
supplied) carries exactly the fixed ordered chain — section 4.2 extended with the
content-decoding stage between the credential policy and redirect — with any
caller-supplied additional policies appended after it, never interleaved; the chain is
a function of the inputs alone, hence identical across repeated builds. -/
theorem create_pipeline_chain_fixed_order_amended
    (credential : CredentialValue) (aiohttp_importable : Bool) (kw : PipelineKwargs)
    (res : CreatePipelineResult)
    (hpipe : kw._pipeline = none)
    (h : _create_pipeline credential aiohttp_importable kw = Except.ok res) :
    res.pipeline.policies =
      specSection42ChainWithContentDecode
        (kw._configuration.getD create_configuration) res._credential_policy
      ++ kw._additional_pipeline_policies.map some := by
  cases hres : resolve_credential_policy credential with
  | error e =>
    simp only [_create_pipeline, hres] at h
    exact absurd h (by simp)
  | ok cp =>
    simp only [_create_pipeline, hres, hpipe] at h
    cases htr : kw.transport with
    | some t =>
      simp only [htr] at h
      simp only [Except.ok.injEq] at h
      subst h
      rw [create_pipeline_policies_eq]
      rfl
    | none =>
      simp only [htr] at h
      cases aiohttp_importable with
      | false => simp at h
      | true =>
        simp only [if_true, eq_self_iff_true, Except.ok.injEq] at h
        subst h
        rw [create_pipeline_policies_eq]
        rfl

/-- Concrete kwargs with one caller-supplied additional policy. -/
def exKwAdditional : PipelineKwargs :=
  { _additional_pipeline_policies := [Policy.additional 3] }

/-- The result `_create_pipeline` produces for a bearer credential, an importable
aiohttp and `exKwAdditional`. -/
def exChainResult : CreatePipelineResult :=
  { _credential_policy :=
      some (CredentialPolicy.AsyncBearerTokenCredentialPolicy STORAGE_OAUTH_SCOPE),
    config := { create_configuration with transport := some Transport.AioHttpTransport },
    pipeline := { transport := some Transport.AioHttpTransport,
                  policies := create_pipeline_policies
                    { create_configuration with
                      transport := some Transport.AioHttpTransport }
                    (some (CredentialPolicy.AsyncBearerTokenCredentialPolicy
                      STORAGE_OAUTH_SCOPE))
                    exKwAdditional } }

/-- C5 witness: the chain built for a bearer credential with one additional policy is
the amended fixed order with that policy at the tail. -/
theorem create_pipeline_chain_fixed_order_amended_witness :
    exChainResult.pipeline.policies =
      specSection42ChainWithContentDecode
        (exKwAdditional._configuration.getD create_configuration)
        exChainResult._credential_policy
      ++ exKwAdditional._additional_pipeline_policies.map some :=
  create_pipeline_chain_fixed_order_amended exBearerCredential true exKwAdditional
    exChainResult rfl rfl

/-- C6: every batch call builds a POST whose URL is exactly
`{scheme}://{host}/{path}?{restype}comp=batch{sas}{timeout}` — with `path`, `restype`,
`sas`, `timeout` read from the keyword arguments and defaulting to the empty string —
and whose headers carry `x-ms-version` set to the configured API version. -/
theorem batch_request_url_and_version_header
    (client : BatchClient) (kw : BatchKwargs) (reqs : List SubRequest) :
    (batch_request client kw reqs).method = "POST"
    ∧ (batch_request client kw reqs).url =
        client.scheme ++ "://" ++ client.primary_hostname ++ "/"
          ++ kw.path.getD "" ++ "?" ++ kw.restype.getD ""
          ++ "comp=batch" ++ kw.sas.getD "" ++ kw.timeout.getD ""
    ∧ ("x-ms-version", client.api_version) ∈ (batch_request client kw reqs).headers :=
  ⟨rfl, rfl, by simp [batch_request]⟩

/-- C7: the multipart body carries all sub-requests, and each part's policy list is
exactly the header policy followed by the credential policy when one was resolved at
construction — the header policy alone otherwise — and contains no other stage. -/
theorem batch_request_multipart_reduced_policies
    (client : BatchClient) (kw : BatchKwargs) (reqs : List SubRequest) :
    (batch_request client kw reqs).multipart_requests = reqs
    ∧ (client._credential_policy = none →
        (batch_request client kw reqs).multipart_policies =
          [Policy.StorageHeadersPolicy])
    ∧ (∀ c, client._credential_policy = some c →
        (batch_request client kw reqs).multipart_policies =
          [Policy.StorageHeadersPolicy, Policy.credentialPolicy c])
    ∧ ∀ p ∈ (batch_request client kw reqs).multipart_policies,
        p = Policy.StorageHeadersPolicy
          ∨ ∃ c, client._credential_policy = some c ∧ p = Policy.credentialPolicy c := by
  refine ⟨rfl, fun h => by simp [batch_request, h], fun c h => by simp [batch_request, h],
    fun p hp => ?_⟩
  cases hcp : client._credential_policy with
  | none =>
    simp [batch_request, hcp] at hp
    exact Or.inl hp
  | some c =>
    simp [batch_request, hcp] at hp
    rcases hp with rfl | rfl
    · exact Or.inl rfl
    · exact Or.inr ⟨c, rfl, rfl⟩

/-- C7 witness: for the shared-key client the per-part policies are exactly the header
policy followed by the shared-key credential policy, and the parts carry the supplied
sub-requests. -/
theorem batch_request_multipart_reduced_policies_witness :
    (batch_request exClient {} []).multipart_requests = ([] : List SubRequest)
    ∧ (batch_request exClient {} []).multipart_policies =
        [Policy.StorageHeadersPolicy,
         Policy.credentialPolicy CredentialPolicy.SharedKeyCredentialPolicy] :=
  ⟨(batch_request_multipart_reduced_policies exClient {} []).1,
   (batch_request_multipart_reduced_policies exClient {} []).2.2.1
     CredentialPolicy.SharedKeyCredentialPolicy rfl⟩

/-- C8: the wrapper's `send` delegates to the wrapped transport and returns its
result; `open`, `close`, scoped enter and scoped exit are no-ops leaving the wrapped
transport state unchanged; after wrapper `close` or scoped exit the wrapped transport
still sends exactly as before. -/
theorem async_transport_wrapper_delegates_and_noops
    {σ ρ : Type} (t : AsyncHttpTransportOps σ ρ) (s : σ) (request : HttpRequest) :
    AsyncTransportWrapper.send t s request = t.send s request
    ∧ AsyncTransportWrapper.open_ t s = s
    ∧ AsyncTransportWrapper.close t s = s
    ∧ AsyncTransportWrapper.aenter t s = s
    ∧ AsyncTransportWrapper.aexit t s = s
    ∧ t.send (AsyncTransportWrapper.close t s) request = t.send s request
    ∧ t.send (AsyncTransportWrapper.aexit t s) request = t.send s request :=
  ⟨rfl, rfl, rfl, rfl, rfl, rfl, rfl⟩

/-- C9: the synchronous context-manager enter always fails immediately — its whole
body is the raise, so no other effect precedes it — with an error the spec classifies
as a ConfigurationError whose message directs the caller to the asynchronous form. -/
theorem sync_enter_rejected_with_configuration_error :
    ∃ pre post,
      AsyncStorageAccountHostsMixin_enter =
        Except.error (PipelineError.TypeError (pre ++ "async with" ++ post))
      ∧ (PipelineError.TypeError (pre ++ "async with" ++ post)).isConfigurationError
          = true :=
  ⟨"Async client only supports \x27", "\x27.", by rfl, rfl⟩

/-- C10: a truthy `_pipeline` kwarg short-circuits `_create_pipeline`: the returned
pipeline is exactly the supplied object, untouched; credential classification still
runs first, so an unsupported credential raises even then, while a supported
credential's resolved policy is recorded on the client without being inserted into the
supplied pipeline. -/
theorem create_pipeline_prebuilt_pipeline_early_return
    (credential : CredentialValue) (aiohttp_importable : Bool) (kw : PipelineKwargs)
    (p : AsyncPipelineModel) (hp : kw._pipeline = some p) :
    (∀ e, resolve_credential_policy credential = Except.error e →
        _create_pipeline credential aiohttp_importable kw = Except.error e)
    ∧ ∀ cp, resolve_credential_policy credential = Except.ok cp →
        _create_pipeline credential aiohttp_importable kw =
          Except.ok { _credential_policy := cp,
                      config := kw._configuration.getD create_configuration,
                      pipeline := p } := by
  constructor
  · intro e he
    simp only [_create_pipeline, he]
  · intro cp hcp
    simp only [_create_pipeline, hcp, hp]

/-- C10 witness: a bearer credential with a supplied pre-built pipeline returns that
very pipeline with the resolved bearer policy recorded, even though no transport could
have been constructed (aiohttp unavailable). -/
theorem create_pipeline_prebuilt_pipeline_early_return_witness :
    _create_pipeline exBearerCredential false exKwWithPipeline =
      Except.ok { _credential_policy :=
                    some (CredentialPolicy.AsyncBearerTokenCredentialPolicy
                      STORAGE_OAUTH_SCOPE),
                  config := create_configuration,
                  pipeline := exSuppliedPipeline } :=
  (create_pipeline_prebuilt_pipeline_early_return exBearerCredential false
      exKwWithPipeline exSuppliedPipeline rfl).2
    (some (CredentialPolicy.AsyncBearerTokenCredentialPolicy STORAGE_OAUTH_SCOPE)) rfl

